import Mathlib

/-!
Verification of the forecast-processing pipeline and helper functions of
src/streamlit_app.py, a Streamlit weather dashboard over the OpenWeatherMap
API. The Python source is embedded shallowly: JSON payload fields become
Option-typed structure fields, Python datetime arithmetic becomes integer
arithmetic on Unix timestamps (floor division for date extraction), Python
float arithmetic in the wind-direction helper becomes exact rational
arithmetic with round-half-to-even, and the Streamlit rendering calls become
pure values recording what the user would see.
-/

namespace SatWeather

/-- Marker the app renders for a missing value. -/
def NA : String := "N/A"

/-- Fallback emoji of WEATHER_EMOJIS.get (source line 299). -/
def EMOJI_UNKNOWN : String := "❓"

/-- Stands for the Python IndexError a list access with an out-of-range
index would raise; used as the getD default for list indexing. -/
def INDEX_ERROR : String := "IndexError"

/-- WEATHER_EMOJIS (source lines 22-38): the condition-category table. -/
def WEATHER_EMOJIS : List (String × String) :=
  [("Clear", "☀️ Clear Sky"),
   ("Clouds", "☁️ Cloudy"),
   ("Rain", "🌧️ Rain"),
   ("Drizzle", "💧 Drizzle"),
   ("Thunderstorm", "⛈️ Thunderstorm"),
   ("Snow", "❄️ Snow"),
   ("Mist", "🌫️ Mist/Fog"),
   ("Smoke", "💨 Smoke"),
   ("Haze", "🌁 Haze"),
   ("Dust", "🏜️ Dust"),
   ("Fog", "🌫️ Mist/Fog"),
   ("Sand", "🏖️ Sand/Dust"),
   ("Ash", "🌋 Ash"),
   ("Squall", "🌬️ Squalls"),
   ("Tornado", "🌪️ Tornado")]

/-- The 16-point compass rose of get_wind_direction (source lines 125-126). -/
def directions : List String :=
  ["N", "NNE", "NE", "ENE", "E", "ESE", "SE", "SSE",
   "S", "SSW", "SW", "WSW", "W", "WNW", "NW", "NNW"]

/-- Python round: round half to even (the built-in used at source line 127). -/
def round_py (q : ℚ) : ℤ :=
  let n : ℤ := ⌊q⌋
  if q - n < 1 / 2 then n
  else if 1 / 2 < q - n then n + 1
  else if n % 2 = 0 then n else n + 1

/-- get_wind_direction (source lines 121-128): wind degrees to a compass
name, N/A for a missing reading. -/
def get_wind_direction (deg : Option ℚ) : String :=
  match deg with
  | none => NA
  | some d =>
      let index : ℤ :=
        round_py (d / ((360 : ℚ) / (directions.length : ℚ))) % (directions.length : ℤ)
      directions.getD index.toNat INDEX_ERROR

/-- convert_timestamp_to_local (source lines 107-119): a UTC Unix timestamp
plus the fixed offset in seconds, None when either input is missing. -/
def convert_timestamp_to_local (timestamp_utc timezone_offset : Option ℤ) : Option ℤ :=
  match timestamp_utc, timezone_offset with
  | some t, some off => some (t + off)
  | _, _ => none

/-- The local calendar date of a local timestamp as days since 1970-01-01:
dt_local.date() at source line 306. Python datetime floor-divides, so fdiv. -/
def localDate (t : ℤ) : ℤ := t.fdiv 86400

/-- One element of the forecast payload list, holding the fields
display_forecast reads (source lines 285-308); a missing JSON field is none. -/
structure ForecastItem where
  dt : Option ℤ
  weather_main : Option String
  weather_description : Option String
  temp : Option ℚ
  feels_like : Option ℚ
  humidity : Option ℚ
  wind_speed : Option ℚ
  wind_deg : Option ℚ
deriving DecidableEq, Repr

/-- One row of df_forecast (source lines 296-307). time is the local
timestamp the source formats as HH:MM; the numeric fields keep none where
the source stores np.nan. -/
structure ForecastRow where
  time : ℤ
  mainCondition : String
  conditionEmoji : String
  conditionDescription : String
  temp : Option ℚ
  feelsLike : Option ℚ
  humidity : Option ℚ
  windSpeed : Option ℚ
  windDeg : Option ℚ
  filterDate : ℤ
deriving DecidableEq, Repr

/-- Python str.capitalize: first character upper-cased, the rest
lower-cased (source line 300). -/
def capitalize_py (s : String) : String :=
  match s.data with
  | [] => s
  | c :: rest => String.mk (c.toUpper :: rest.map Char.toLower)

/-- The row built for one payload item once its local time is known
(source lines 290-307). -/
def mkRow (item : ForecastItem) (dt_local : ℤ) : ForecastRow :=
  let main_weather_group := item.weather_main.getD NA
  { time := dt_local
    mainCondition := main_weather_group
    conditionEmoji := (WEATHER_EMOJIS.lookup main_weather_group).getD EMOJI_UNKNOWN
    conditionDescription := capitalize_py (item.weather_description.getD NA)
    temp := item.temp
    feelsLike := item.feels_like
    humidity := item.humidity
    windSpeed := item.wind_speed
    windDeg := item.wind_deg
    filterDate := localDate dt_local }

/-- The filtering loop of display_forecast (source lines 285-308): items
whose convert_timestamp_to_local comes back None are skipped (continue). -/
def forecast_rows (forecast_list : List ForecastItem) (timezone_offset : Option ℤ) :
    List ForecastRow :=
  forecast_list.filterMap (fun item =>
    match convert_timestamp_to_local item.dt timezone_offset with
    | none => none
    | some dt_local => some (mkRow item dt_local))

/-- pandas Series.unique on an object column (source line 312): the distinct
values in order of first appearance. -/
def unique_first_seen : List ℤ → List ℤ
  | [] => []
  | a :: l => a :: unique_first_seen (l.filter (fun x => x ≠ a))
termination_by l => l.length
decreasing_by
  simp only [List.length_cons]
  exact Nat.lt_succ_of_le (List.length_filter_le _ _)

/-- The distinct FilterDate values of the frame, in first-seen order
(source line 312). -/
def unique_dates (df_forecast : List ForecastRow) : List ℤ :=
  unique_first_seen (df_forecast.map (fun r => r.filterDate))

/-- The day filter df_forecast[df_forecast.FilterDate == date] at source
line 334: row order is preserved, only the date is compared. -/
def df_day (df_forecast : List ForecastRow) (date : ℤ) : List ForecastRow :=
  df_forecast.filter (fun r => r.filterDate = date)

/-- Cards per grid row (source line 327). -/
def cols_per_row : ℕ := 4

/-- The chunking of one day group into card rows (source lines 337-350):
row k holds the entries with indices in the interval from 4k to
min (4k + 4) num_cards, fetched in increasing index order. -/
def card_rows (day_group : List ForecastRow) : List (List ForecastRow) :=
  let num_cards := day_group.length
  let num_rows := (num_cards + cols_per_row - 1) / cols_per_row
  (List.range num_rows).map
    (fun row_idx => (day_group.drop (row_idx * cols_per_row)).take cols_per_row)

/-- Weekday names indexed as Python date.weekday: Monday is 0. -/
def day_names : List String :=
  ["Monday", "Tuesday", "Wednesday", "Thursday", "Friday", "Saturday", "Sunday"]

/-- strftime %A at source line 321: the weekday name of a date given as days
since the epoch; day 0, 1970-01-01, was a Thursday. -/
def weekday_name (date : ℤ) : String :=
  day_names.getD ((date + 3) % 7).toNat INDEX_ERROR

/-- strftime %b month abbreviations. -/
def month_abbreviations : List String :=
  ["Jan", "Feb", "Mar", "Apr", "May", "Jun", "Jul", "Aug", "Sep", "Oct", "Nov", "Dec"]

/-- Gregorian (year, month, day) of a days-since-epoch count: the civil
calendar computation behind the Python datetime.date the source formats.
Standard era-of-400-years decomposition of the proleptic Gregorian
calendar. -/
def civil_from_days (z0 : ℤ) : ℤ × ℕ × ℕ :=
  let z := z0 + 719468
  let era := z.fdiv 146097
  let doe := (z - era * 146097).toNat
  let yoe := (doe - doe / 1460 + doe / 36524 - doe / 146096) / 365
  let y := (yoe : ℤ) + era * 400
  let doy := doe - (365 * yoe + yoe / 4 - yoe / 100)
  let mp := (5 * doy + 2) / 153
  let d := doy - (153 * mp + 2) / 5 + 1
  let m := if mp < 10 then mp + 3 else mp - 9
  (if m ≤ 2 then y + 1 else y, m, d)

/-- Two-digit zero padding, as strftime %d pads the day. -/
def pad2 (n : ℕ) : String :=
  if n < 10 then "0" ++ toString n else toString n

/-- strftime of %b %d at source line 322: abbreviated month, a blank, the
zero-padded day of month. -/
def strftime_b_d (date : ℤ) : String :=
  let c := civil_from_days date
  (month_abbreviations.getD (c.2.1 - 1) INDEX_ERROR) ++ " " ++ pad2 c.2.2

/-- The tab title of the group at position i (source lines 315-322):
positional Today and Tomorrow labels, weekday names afterwards, each with
the month/day suffix. The computation never consults the real current
date. -/
def tab_title (i : ℕ) (date : ℤ) : String :=
  (if i = 0 then "Today" else if i = 1 then "Tomorrow" else weekday_name date)
    ++ " (" ++ strftime_b_d date ++ ")"

/-- The enumerate loop building tab_titles (source lines 314-322), started
at position i. -/
def tab_titles_from (i : ℕ) : List ℤ → List String
  | [] => []
  | d :: ds => tab_title i d :: tab_titles_from (i + 1) ds

/-- tab_titles of the whole unique-date list (source lines 314-324). -/
def tab_titles (uds : List ℤ) : List String := tab_titles_from 0 uds

/-- The observable outcome of display_forecast: the early-return warning, an
uncaught exception, or the rendered tabs of card rows. -/
inductive ForecastResult where
  | noData (message : String)
  | failure (message : String)
  | rendered (titles : List String) (days : List (List (List ForecastRow)))
deriving DecidableEq, Repr

/-- The st.warning text of the early return (source line 280). -/
def no_forecast_msg : String := "No forecast data available for this location."

/-- The uncaught pandas exception when the frame has no FilterDate column. -/
def key_error_msg : String := "KeyError: FilterDate"

/-- display_forecast (source lines 275-380). An empty payload list warns and
returns early (lines 279-281). When the list is nonempty but every item is
dropped by the timestamp filter, pd.DataFrame of an empty row list has no
columns at all, so the FilterDate column access at line 312 raises a
KeyError that nothing catches. Otherwise the groups are rendered as one tab
per distinct date, each holding its card rows. -/
def display_forecast (forecast_list : List ForecastItem) (timezone_offset : Option ℤ) :
    ForecastResult :=
  if forecast_list.isEmpty then .noData no_forecast_msg
  else
    let df_forecast := forecast_rows forecast_list timezone_offset
    if df_forecast.isEmpty then .failure key_error_msg
    else
      let uds := unique_dates df_forecast
      .rendered (tab_titles uds) (uds.map (fun d => card_rows (df_day df_forecast d)))

/-- UNITS (source line 19). -/
def UNITS : String := "metric"

/-- unit_symbol (source line 222). -/
def unit_symbol : String := if UNITS == "metric" then "°C" else "°F"

/-- The current-conditions payload fields display_weather reads
(source lines 193-219); a missing JSON field is none. -/
structure CurrentData where
  name : Option String
  country : Option String
  timezone : Option ℤ
  weather_main : Option String
  weather_description : Option String
  temp : Option ℚ
  feels_like : Option ℚ
  temp_min : Option ℚ
  temp_max : Option ℚ
  pressure : Option ℤ
  humidity : Option ℤ
  visibility : Option ℤ
  wind_speed : Option ℚ
  wind_deg : Option ℚ
  wind_gust : Option ℚ
  clouds_all : Option ℤ
  rain_1h : Option ℚ
  snow_1h : Option ℚ
  sunrise : Option ℤ
  sunset : Option ℤ
deriving DecidableEq, Repr

/-- Zero padding on the left to a given width. -/
def pad_zeros (width : ℕ) (n : ℕ) : String :=
  let s := toString n
  String.mk (List.replicate (width - s.length) (Char.ofNat 48)) ++ s

/-- Python fixed-point formatting, as in a .1f format spec: the value is
rounded half to even at the requested number of decimal places. -/
def format_fixed (digits : ℕ) (q : ℚ) : String :=
  let p : ℤ := (10 : ℤ) ^ digits
  let n := round_py (q * (p : ℚ))
  let sign := if n < 0 then "-" else ""
  let a := n.natAbs
  sign ++ toString (a / p.toNat) ++ "." ++ pad_zeros digits (a % p.toNat)

/-- The message of the Python TypeError raised when a .1f format spec is
applied to None (a missing numeric field). -/
def type_error_msg : String :=
  "TypeError: unsupported format string passed to NoneType"

/-- A .1f format applied to an optional value: raises for None, as Python
string formatting does. -/
def format_fixed1 : Option ℚ → Except String String
  | none => .error type_error_msg
  | some q => .ok (format_fixed 1 q)

/-- The fractional digits of a rational in the interval from 0 to 1, most
significant first, up to the given count, trailing zeros dropped. -/
def frac_digits : ℕ → ℚ → List ℕ
  | 0, _ => []
  | k + 1, q => if q = 0 then [] else ⌊q * 10⌋.toNat :: frac_digits k (q * 10 - ⌊q * 10⌋)

/-- Decimal rendering of a rational, standing in for the Python str of the
float carrying the same value (exact for the short decimals the API
serves; the claims only distinguish present from missing values). -/
def decimal_repr (q : ℚ) : String :=
  let sign := if q < 0 then "-" else ""
  let a : ℚ := |q|
  let ds := frac_digits 6 (a - ⌊a⌋)
  sign ++ toString ⌊a⌋.toNat ++ "." ++ (if ds.isEmpty then "0" else String.join (ds.map toString))

/-- Python str of an optional int in an f-string: None prints as the word
None, never as a blank. -/
def str_py_int : Option ℤ → String
  | none => "None"
  | some z => toString z

/-- Python str of an optional float in an f-string. -/
def str_py_rat : Option ℚ → String
  | none => "None"
  | some q => decimal_repr q

/-- strftime %H:%M:%S of a local timestamp (source lines 246-247). -/
def format_hms (t : ℤ) : String :=
  let s := (t % 86400).toNat
  pad2 (s / 3600) ++ ":" ++ pad2 (s % 3600 / 60) ++ ":" ++ pad2 (s % 60)

/-- display_weather (source lines 189-272) as the ordered list of label and
value pairs the page shows, or the first uncaught formatting exception. The
only operations that can raise are the .1f format specs applied to the
temperature family, in source order: temp (line 241), feels_like (242),
temp_min and temp_max (254). -/
def display_weather (data : CurrentData) : Except String (List (String × String)) := do
  let city_name := data.name.getD NA
  let country_code := data.country.getD NA
  let timezone_offset := data.timezone.getD 0
  let main_weather := data.weather_main.getD NA
  let description := capitalize_py (data.weather_description.getD NA)
  let weather_emoji := (WEATHER_EMOJIS.lookup main_weather).getD EMOJI_UNKNOWN
  let full_condition := weather_emoji ++ " (" ++ description ++ ")"
  let wind_dir := get_wind_direction data.wind_deg
  let visibility_km := match data.visibility with
    | some v => format_fixed 1 ((v : ℚ) / 1000) ++ " km"
    | none => NA
  let sunrise_local := convert_timestamp_to_local data.sunrise (some timezone_offset)
  let sunset_local := convert_timestamp_to_local data.sunset (some timezone_offset)
  let temp_s ← format_fixed1 data.temp
  let feels_s ← format_fixed1 data.feels_like
  let temp_min_s ← format_fixed1 data.temp_min
  let temp_max_s ← format_fixed1 data.temp_max
  .ok
    [("Header", "🌎 Current Weather in " ++ city_name ++ ", " ++ country_code.toUpper),
     ("Condition", full_condition),
     ("Temperature", temp_s ++ " " ++ unit_symbol),
     ("Feels Like", feels_s ++ " " ++ unit_symbol),
     ("Sunrise", match sunrise_local with | some t => format_hms t | none => NA),
     ("Sunset", match sunset_local with | some t => format_hms t | none => NA),
     ("Min/Max Temp (Day)", temp_min_s ++ " / " ++ temp_max_s ++ " " ++ unit_symbol),
     ("Wind Speed", str_py_rat data.wind_speed ++ " m/s"),
     ("Wind Direction",
       match data.wind_deg with
       | some dg => wind_dir ++ " (" ++ decimal_repr dg ++ "º)"
       | none => NA),
     ("Pressure", str_py_int data.pressure ++ " hPa"),
     ("Humidity", str_py_int data.humidity ++ " %"),
     ("Visibility", visibility_km),
     ("Cloudiness",
       match data.clouds_all with
       | some c => toString c ++ " %"
       | none => NA),
     ("Wind Gust",
       match data.wind_gust with
       | some g => decimal_repr g ++ " m/s"
       | none => NA),
     ("Precipitation (1hr)",
       format_fixed 2 (data.rain_1h.getD 0 + data.snow_1h.getD 0) ++ " mm")]

/-- What the external weather API answers one HTTP GET with: a deserialized
body, a 404, another HTTP failure, or no connection at all. -/
inductive HttpResponse (α : Type) where
  | success (body : α)
  | notFound
  | httpError (status : ℕ)
  | connectionError
deriving DecidableEq

/-- What one fetch function leaves behind: its return value, how many HTTP
requests it issued, and the user-visible messages it emitted. -/
structure FetchOutcome (α : Type) where
  result : Option α
  requests_issued : ℕ
  messages : List String
deriving DecidableEq

/-- The placeholder OWM_API_KEY takes when the secrets file is absent
(source line 14). -/
def PLACEHOLDER_KEY : String := "PLACEHOLDER_FOR_SECRETS_NOT_LOADED"

/-- The two st.error messages of handle_api_error (source lines 135-136). -/
def api_key_missing_msgs : List String :=
  ["⚠️ **Error: OpenWeatherMap API key not found.**",
   "Please create a `.streamlit/secrets.toml` file and add the `openweathermap_api_key`."]

/-- handle_api_error (source lines 132-138): true when no API credential is
configured. -/
def handle_api_error (api_key : String) : Bool :=
  api_key == PLACEHOLDER_KEY

/-- The 404 message of get_current_weather_data (source line 155); the
source wraps the city name in single quotation marks, elided here. -/
def city_not_found_msg (city_name : String) : String :=
  "City " ++ city_name ++ " not found for current weather. Please select another city."

/-- get_current_weather_data (source lines 140-161): the credential check
runs first and returns without any request; otherwise one request is issued
and every failure is converted to a user-visible message and a None
result. -/
def get_current_weather_data (api_key city_name country_code : String)
    (response : HttpResponse CurrentData) : FetchOutcome CurrentData :=
  if handle_api_error api_key then
    { result := none, requests_issued := 0, messages := api_key_missing_msgs }
  else
    match response with
    | .success body => { result := some body, requests_issued := 1, messages := [] }
    | .notFound =>
        { result := none, requests_issued := 1, messages := [city_not_found_msg city_name] }
    | .httpError status =>
        { result := none, requests_issued := 1,
          messages := ["HTTP Error fetching current weather: status " ++ toString status] }
    | .connectionError =>
        { result := none, requests_issued := 1,
          messages := ["Error connecting to OWM API for current weather"] }

/-- The 404 warning of get_forecast_data (source line 178). -/
def forecast_not_found_msg : String :=
  "Forecast data not available for this specific city."

/-- get_forecast_data (source lines 163-184), same shape as the current
weather fetch. -/
def get_forecast_data (api_key city_name country_code : String)
    (response : HttpResponse (List ForecastItem)) : FetchOutcome (List ForecastItem) :=
  if handle_api_error api_key then
    { result := none, requests_issued := 0, messages := api_key_missing_msgs }
  else
    match response with
    | .success body => { result := some body, requests_issued := 1, messages := [] }
    | .notFound =>
        { result := none, requests_issued := 1, messages := [forecast_not_found_msg] }
    | .httpError status =>
        { result := none, requests_issued := 1,
          messages := ["HTTP Error fetching forecast: status " ++ toString status] }
    | .connectionError =>
        { result := none, requests_issued := 1,
          messages := ["Error connecting to OWM API for forecast"] }

/-- The fetch sequence of main (source lines 429-444): current conditions
first; the forecast fetch is attempted only when the current fetch returned
a payload. -/
def main_fetch (api_key city_name country_code : String)
    (current_response : HttpResponse CurrentData)
    (forecast_response : HttpResponse (List ForecastItem)) :
    FetchOutcome CurrentData × Option (FetchOutcome (List ForecastItem)) :=
  let current := get_current_weather_data api_key city_name country_code current_response
  match current.result with
  | some _ =>
      (current, some (get_forecast_data api_key city_name country_code forecast_response))
  | none => (current, none)

/-! ### Concrete sample inputs used by witnesses and counterexamples -/

/-- A sample city name for concrete instantiations. -/
def sample_city : String := "Paris"

/-- A sample country code for concrete instantiations. -/
def sample_country : String := "FR"

/-- A sample configured API key (anything but the placeholder). -/
def sample_api_key : String := "configured-key"

/-- The Clear condition category. -/
def clear_str : String := "Clear"

/-- A sample condition description. -/
def clear_desc : String := "clear sky"

/-! ### Properties of the grouping pipeline -/

/-- Unfolding equation of unique_first_seen on a nonempty list. -/
theorem unique_first_seen_cons (a : ℤ) (l : List ℤ) :
    unique_first_seen (a :: l) = a :: unique_first_seen (l.filter (fun x => x ≠ a)) := by
  rw [unique_first_seen]

/-- unique_first_seen keeps exactly the values of its input. -/
theorem mem_unique_first_seen (l : List ℤ) (x : ℤ) : x ∈ unique_first_seen l ↔ x ∈ l := by
  induction l using unique_first_seen.induct with
  | case1 => simp [unique_first_seen]
  | case2 a l ih =>
      rw [unique_first_seen_cons]
      simp only [List.mem_cons, ih, List.mem_filter]
      by_cases hx : x = a
      · simp [hx]
      · simp [hx]

/-- In a list whose keys are nondecreasing and bounded below by c, the
entries with key c form a prefix: filtering them out and putting them in
front reassembles the list. -/
theorem filter_key_eq_append_ne {α : Type} (key : α → ℤ) (c : ℤ) :
    ∀ (t : List α), (t.map key).Pairwise (· ≤ ·) → (∀ e ∈ t, c ≤ key e) →
      t.filter (fun e => key e = c) ++ t.filter (fun e => key e ≠ c) = t := by
  intro t
  induction t with
  | nil => simp
  | cons b r ih =>
      intro hs hc
      simp only [List.map_cons, List.pairwise_cons] at hs
      obtain ⟨hb, hr⟩ := hs
      by_cases hbc : key b = c
      · have hcr : ∀ e ∈ r, c ≤ key e := by
          intro e he
          exact hbc ▸ hb (key e) (List.mem_map_of_mem key he)
        have hrec := ih hr hcr
        simp only [List.filter_cons, hbc, ne_eq, decide_not] at hrec ⊢
        simp [hrec]
      · have hlt : c < key b := lt_of_le_of_ne (hc b (List.mem_cons_self b r)) (fun h => hbc h.symm)
        have hner : ∀ e ∈ r, key e ≠ c := by
          intro e he
          have := hb (key e) (List.mem_map_of_mem key he)
          omega
        have h1 : r.filter (fun e => decide (key e = c)) = [] := by
          rw [List.filter_eq_nil_iff]
          intro e he
          simp [hner e he]
        have h2 : r.filter (fun e => decide (¬ key e = c)) = r := by
          rw [List.filter_eq_self]
          intro e he
          simp [hner e he]
        simp only [List.filter_cons, hbc, ne_eq]
        simp only [if_false, not_false_eq_true, if_true, h1, List.nil_append, List.cons.injEq,
          true_and]
        simpa [decide_not] using h2

/-- For a key-sorted list, grouping by the distinct keys in first-seen order
and concatenating the groups gives back the list (length-bounded recursion). -/
theorem flatten_groups_aux {α : Type} (key : α → ℤ) :
    ∀ (n : ℕ) (l : List α), l.length ≤ n → (l.map key).Pairwise (· ≤ ·) →
      ((unique_first_seen (l.map key)).map (fun d => l.filter (fun e => key e = d))).flatten
        = l := by
  intro n
  induction n with
  | zero =>
      intro l hlen _
      have hnil : l = [] := List.eq_nil_of_length_eq_zero (Nat.le_zero.mp hlen)
      subst hnil
      simp [unique_first_seen]
  | succ n ih =>
      intro l hlen hs
      cases l with
      | nil => simp [unique_first_seen]
      | cons a t =>
          simp only [List.map_cons] at hs ⊢
          have htail : (t.map key).Pairwise (· ≤ ·) := (List.pairwise_cons.mp hs).2
          have hble : ∀ b ∈ t.map key, key a ≤ b := (List.pairwise_cons.mp hs).1
          have hbound : ∀ e ∈ t, key a ≤ key e := by
            intro e he
            exact hble (key e) (List.mem_map_of_mem key he)
          rw [unique_first_seen_cons]
          have hfm : (t.map key).filter (fun x => decide (x ≠ key a))
              = (t.filter (fun e => decide (key e ≠ key a))).map key := by
            rw [List.filter_map]
            rfl
          rw [hfm]
          rw [List.map_cons, List.flatten_cons]
          have hga : List.filter (fun e => decide (key e = key a)) (a :: t)
              = a :: t.filter (fun e => decide (key e = key a)) := by
            simp [List.filter_cons]
          have hcongr :
              ∀ d ∈ unique_first_seen ((t.filter (fun e => decide (key e ≠ key a))).map key),
                List.filter (fun e => decide (key e = d)) (a :: t)
                  = List.filter (fun e => decide (key e = d))
                      (t.filter (fun e => decide (key e ≠ key a))) := by
            intro d hd
            rw [mem_unique_first_seen] at hd
            obtain ⟨e, he, hke⟩ := List.mem_map.mp hd
            have hea : key e ≠ key a := by
              have := (List.mem_filter.mp he).2
              simpa using this
            have hda : key a ≠ d := by
              rw [← hke]
              exact fun h => hea h.symm
            rw [List.filter_cons, if_neg (by simpa using hda)]
            rw [List.filter_filter]
            apply List.filter_congr
            intro x hx
            by_cases hxd : key x = d
            · have hxa : key x ≠ key a := by
                rw [hxd]
                exact fun h => hda h.symm
              have hprop : ¬ d = key a := fun h => hda h.symm
              simp [hxd, hxa, hprop]
            · simp [hxd]
          rw [hga, List.map_congr_left hcongr]
          have hlen' : (t.filter (fun e => decide (key e ≠ key a))).length ≤ n :=
            le_trans (List.length_filter_le _ _) (Nat.succ_le_succ_iff.mp hlen)
          have hs' : ((t.filter (fun e => decide (key e ≠ key a))).map key).Pairwise (· ≤ ·) := by
            rw [← hfm]
            exact htail.filter _
          rw [ih _ hlen' hs']
          rw [List.cons_append]
          have hpart := filter_key_eq_append_ne key (key a) t htail hbound
          simp only [ne_eq] at hpart
          rw [hpart]

/-- Stable group-by over first-seen distinct keys loses nothing and keeps
order when the key sequence is nondecreasing. -/
theorem flatten_groups_of_sorted {α : Type} (key : α → ℤ) (l : List α)
    (h : (l.map key).Pairwise (· ≤ ·)) :
    ((unique_first_seen (l.map key)).map (fun d => l.filter (fun e => key e = d))).flatten = l :=
  flatten_groups_aux key l.length l le_rfl h

/-- The local calendar date is monotone in the local timestamp. -/
theorem localDate_mono {a b : ℤ} (h : a ≤ b) : localDate a ≤ localDate b := by
  unfold localDate
  rw [Int.fdiv_eq_ediv _ (by norm_num), Int.fdiv_eq_ediv _ (by norm_num)]
  exact Int.ediv_le_ediv (by norm_num) h

/-- With an offset present, the filter loop keeps exactly the items carrying
a timestamp and shifts each timestamp by the offset. -/
theorem forecast_rows_some_offset (forecast_list : List ForecastItem) (off : ℤ) :
    forecast_rows forecast_list (some off)
      = forecast_list.filterMap (fun item => item.dt.map (fun t => mkRow item (t + off))) := by
  unfold forecast_rows
  congr 1
  funext item
  cases hdt : item.dt <;> simp [hdt, convert_timestamp_to_local]

/-- With the offset missing, every item is dropped. -/
theorem forecast_rows_none_offset (forecast_list : List ForecastItem) :
    forecast_rows forecast_list none = [] := by
  unfold forecast_rows
  rw [List.filterMap_eq_nil_iff]
  intro item _
  cases hdt : item.dt <;> simp [hdt, convert_timestamp_to_local]

/-- The FilterDate column of the built frame, as a function of the surviving
timestamps. -/
theorem forecast_rows_filterDate (forecast_list : List ForecastItem) (off : ℤ) :
    (forecast_rows forecast_list (some off)).map (fun r => r.filterDate)
      = (forecast_list.filterMap (fun item => item.dt)).map (fun t => localDate (t + off)) := by
  rw [forecast_rows_some_offset, List.map_filterMap, List.map_filterMap]
  congr 1
  funext item
  cases hdt : item.dt <;> simp [hdt, mkRow]

/-! ### Properties of the row chunking -/

/-- card_rows of an empty group is no row at all. -/
theorem card_rows_nil : card_rows [] = [] := by
  simp [card_rows, cols_per_row]

/-- card_rows peels off the first four entries as the first row. -/
theorem card_rows_cons (g : List ForecastRow) (hg : g ≠ []) :
    card_rows g = g.take cols_per_row :: card_rows (g.drop cols_per_row) := by
  unfold card_rows
  have hpos : g.length ≠ 0 := fun h => hg (List.eq_nil_of_length_eq_zero h)
  simp only [cols_per_row, List.length_drop]
  obtain ⟨k, hk⟩ : ∃ k, (g.length + 4 - 1) / 4 = k + 1 := by
    refine ⟨(g.length + 4 - 1) / 4 - 1, ?_⟩
    omega
  have hk2 : (g.length - 4 + 4 - 1) / 4 = k := by omega
  rw [hk, hk2, List.range_succ_eq_map, List.map_cons, List.map_map]
  simp only [Nat.zero_mul, List.drop_zero]
  congr 1
  apply List.map_congr_left
  intro i _
  simp only [Function.comp_apply, Nat.succ_eq_add_one]
  rw [List.drop_drop]
  have harith : 4 + i * 4 = (i + 1) * 4 := by ring
  rw [harith]

/-- Concatenating the card rows restores the group (length-bounded
recursion). -/
theorem card_rows_flatten_aux :
    ∀ (n : ℕ) (g : List ForecastRow), g.length ≤ n → (card_rows g).flatten = g := by
  intro n
  induction n with
  | zero =>
      intro g h
      have hnil : g = [] := List.eq_nil_of_length_eq_zero (Nat.le_zero.mp h)
      subst hnil
      simp [card_rows_nil]
  | succ n ih =>
      intro g hlen
      by_cases hg : g = []
      · subst hg
        simp [card_rows_nil]
      · rw [card_rows_cons g hg, List.flatten_cons]
        have hdrop : (g.drop cols_per_row).length ≤ n := by
          simp only [List.length_drop, cols_per_row]
          have : g.length ≠ 0 := fun h => hg (List.eq_nil_of_length_eq_zero h)
          omega
        rw [ih _ hdrop]
        exact List.take_append_drop _ g

/-- Concatenating the card rows restores the group. -/
theorem card_rows_flatten (g : List ForecastRow) : (card_rows g).flatten = g :=
  card_rows_flatten_aux g.length g le_rfl

/-- The number of card rows, as the source computes it. -/
theorem card_rows_length (g : List ForecastRow) :
    (card_rows g).length = (g.length + cols_per_row - 1) / cols_per_row := by
  simp [card_rows]

/-- Every card row before the last is full (length-bounded recursion). -/
theorem card_rows_dropLast_aux :
    ∀ (n : ℕ) (g : List ForecastRow), g.length ≤ n →
      ∀ r ∈ (card_rows g).dropLast, r.length = cols_per_row := by
  intro n
  induction n with
  | zero =>
      intro g h
      have hnil : g = [] := List.eq_nil_of_length_eq_zero (Nat.le_zero.mp h)
      subst hnil
      simp [card_rows_nil]
  | succ n ih =>
      intro g hlen r hr
      by_cases hg : g = []
      · subst hg
        simp [card_rows_nil] at hr
      · rw [card_rows_cons g hg] at hr
        by_cases hrest : card_rows (g.drop cols_per_row) = []
        · rw [hrest] at hr
          simp at hr
        · rw [List.dropLast_cons_of_ne_nil hrest] at hr
          rcases List.mem_cons.mp hr with h1 | h2
          · subst h1
            have hlong : cols_per_row ≤ g.length := by
              by_contra hshort
              apply hrest
              have hde : g.drop cols_per_row = [] := by
                apply List.drop_eq_nil_of_le
                omega
              rw [hde, card_rows_nil]
            rw [List.length_take]
            omega
          · have hdrop : (g.drop cols_per_row).length ≤ n := by
              simp only [List.length_drop]
              have : g.length ≠ 0 := fun h => hg (List.eq_nil_of_length_eq_zero h)
              simp only [cols_per_row]
              omega
            exact ih (g.drop cols_per_row) hdrop r h2

/-- The ceiling of a fourth, computed the way the source computes row
counts. -/
theorem ceil_quarter (n : ℕ) : ⌈(n : ℚ) / 4⌉ = (((n + 3) / 4 : ℕ) : ℤ) := by
  have h1 : n ≤ 4 * ((n + 3) / 4) := by omega
  have h2 : 4 * ((n + 3) / 4) < n + 4 := by omega
  set z : ℕ := (n + 3) / 4 with hz
  have hcast : ((z : ℤ) : ℚ) = (z : ℚ) := by push_cast; ring
  rw [Int.ceil_eq_iff]
  constructor
  · rw [lt_div_iff (by norm_num : (0 : ℚ) < 4)]
    rw [hcast]
    have h2q : 4 * (z : ℚ) < (n : ℚ) + 4 := by exact_mod_cast h2
    linarith
  · rw [div_le_iff (by norm_num : (0 : ℚ) < 4)]
    rw [hcast]
    have h1q : (n : ℚ) ≤ 4 * (z : ℚ) := by exact_mod_cast h1
    linarith

/-! ### Properties of the day labels -/

/-- Indexing the title list built from position i on. -/
theorem tab_titles_from_getElem? (uds : List ℤ) :
    ∀ (i j : ℕ), (tab_titles_from i uds)[j]? = uds[j]?.map (fun d => tab_title (i + j) d) := by
  induction uds with
  | nil =>
      intro i j
      simp [tab_titles_from]
  | cons d ds ih =>
      intro i j
      cases j with
      | zero => simp [tab_titles_from]
      | succ j =>
          simp only [tab_titles_from, List.getElem?_cons_succ]
          rw [ih (i + 1) j]
          have hidx : i + 1 + j = i + (j + 1) := by omega
          rw [hidx]

/-! ### Evaluation helpers for the wind-direction conversion -/

/-- The compass list as the rational the conversion divides by. -/
theorem directions_length_q : ((directions.length : ℕ) : ℚ) = 16 := by
  norm_num [directions]

/-- round_py below the half boundary rounds down. -/
theorem round_py_of_lt (q : ℚ) (n : ℤ) (hfl : ⌊q⌋ = n) (h : q - (n : ℚ) < 1 / 2) :
    round_py q = n := by
  unfold round_py
  simp only [hfl]
  rw [if_pos h]

/-- round_py above the half boundary rounds up. -/
theorem round_py_of_gt (q : ℚ) (n : ℤ) (hfl : ⌊q⌋ = n) (h1 : ¬ (q - (n : ℚ) < 1 / 2))
    (h2 : 1 / 2 < q - (n : ℚ)) : round_py q = n + 1 := by
  unfold round_py
  simp only [hfl]
  rw [if_neg h1, if_pos h2]

/-- Evaluating the conversion once quotient, rounded value and index are
known. -/
theorem get_wind_direction_some_eq (d q : ℚ) (k : ℤ) (i : ℕ)
    (hq : d / ((360 : ℚ) / (directions.length : ℚ)) = q)
    (hr : round_py q = k)
    (hi : (k % (directions.length : ℤ)).toNat = i) :
    get_wind_direction (some d) = directions.getD i INDEX_ERROR := by
  show directions.getD
      ((round_py (d / ((360 : ℚ) / (directions.length : ℚ)))
        % (directions.length : ℤ)).toNat) INDEX_ERROR
    = directions.getD i INDEX_ERROR
  rw [hq, hr, hi]

/-! ### The claims -/

/-- C1: for every forecast response (the feed is chronological: the
surviving timestamps are nondecreasing), the grouping pipeline partitions
the rows surviving the missing-timestamp filter into day groups keyed by
local calendar date in first-seen order, and concatenating the groups in
group order, entries in intra-group order, reproduces the filtered input
exactly: no row in two groups, no row dropped. -/
theorem c1_grouping_stable_partition (forecast_list : List ForecastItem) (off : ℤ)
    (hchron : (forecast_list.filterMap (fun item => item.dt)).Pairwise (· ≤ ·)) :
    ((unique_dates (forecast_rows forecast_list (some off))).map
        (fun d => df_day (forecast_rows forecast_list (some off)) d)).flatten
      = forecast_rows forecast_list (some off) := by
  unfold unique_dates df_day
  refine flatten_groups_of_sorted (fun r => r.filterDate)
    (forecast_rows forecast_list (some off)) ?_
  rw [forecast_rows_filterDate, List.pairwise_map]
  exact hchron.imp (fun h => localDate_mono (add_le_add_right h off))

/-- A four-item chronological sample feed: three timestamps spanning two
local days, one item without a timestamp. -/
def c1_sample_items : List ForecastItem :=
  [⟨some 0, none, none, none, none, none, none, none⟩,
   ⟨some 10800, none, none, none, none, none, none, none⟩,
   ⟨none, none, none, none, none, none, none, none⟩,
   ⟨some 90000, none, none, none, none, none, none, none⟩]

/-- C1 witness: the grouping theorem applied to the concrete sample feed. -/
theorem c1_grouping_witness :
    ((unique_dates (forecast_rows c1_sample_items (some 0))).map
        (fun d => df_day (forecast_rows c1_sample_items (some 0)) d)).flatten
      = forecast_rows c1_sample_items (some 0) :=
  c1_grouping_stable_partition c1_sample_items 0 (by decide)

/-- C2: chunking a day group of N entries into card rows of four yields
exactly the ceiling of N / 4 rows, every row before the last holds exactly
four entries, and concatenating the rows in order restores the group. -/
theorem c2_row_chunking (day_group : List ForecastRow) :
    ((card_rows day_group).length : ℤ) = ⌈(day_group.length : ℚ) / 4⌉
      ∧ (∀ r ∈ (card_rows day_group).dropLast, r.length = 4)
      ∧ (card_rows day_group).flatten = day_group := by
  refine ⟨?_, ?_, card_rows_flatten day_group⟩
  · rw [card_rows_length, ceil_quarter]
    simp [cols_per_row]
  · intro r hr
    exact card_rows_dropLast_aux day_group.length day_group le_rfl r hr

/-- C3: day-group labels are positional: position 0 is labelled Today,
position 1 Tomorrow, every later position the weekday name of its date;
each label carries the abbreviated month/day suffix. No label depends on
the real current date (tab_title consults none). -/
theorem c3_positional_day_labels (uds : List ℤ) (i : ℕ) (d : ℤ) (h : uds[i]? = some d) :
    (tab_titles uds)[i]?
      = some ((if i = 0 then "Today" else if i = 1 then "Tomorrow" else weekday_name d)
          ++ " (" ++ strftime_b_d d ++ ")") := by
  unfold tab_titles
  rw [tab_titles_from_getElem?, h]
  simp [tab_title]

/-- C3 witness: the labelling theorem at a concrete third group
(day 20375 since the epoch is Wednesday 2025-10-14). -/
theorem c3_labels_witness :
    (tab_titles [20373, 20374, 20375])[2]?
      = some ((if 2 = 0 then "Today" else if 2 = 1 then "Tomorrow" else weekday_name 20375)
          ++ " (" ++ strftime_b_d 20375 ++ ")") :=
  c3_positional_day_labels [20373, 20374, 20375] 2 20375 rfl

/-- C4 counterexample: at 22.49 degrees the conversion yields NNE, not N as
the claim states: 22.49 / 22.5 is about 0.9996, which rounds to index 1. -/
theorem c4_wind_22_49_counterexample :
    get_wind_direction (some (2249 / 100)) = "NNE"
      ∧ get_wind_direction (some (2249 / 100)) ≠ "N" := by
  have hlen : ((directions.length : ℕ) : ℚ) = 16 := directions_length_q
  have h : get_wind_direction (some (2249 / 100)) = directions.getD 1 INDEX_ERROR :=
    get_wind_direction_some_eq (2249 / 100) (2249 / 2250) (0 + 1) 1
      (by rw [hlen]; norm_num)
      (round_py_of_gt (2249 / 2250) 0 (by norm_num) (by norm_num) (by norm_num))
      (by decide)
  refine ⟨h.trans rfl, ?_⟩
  rw [h]
  decide

/-- C4 amended: the conversion computes index round(degrees / 22.5) mod 16
into the 16-point compass list; on the boundary values it yields N at 0,
E at 90, S at 180, W at 270, N at 360, NNE at 22.49 (not N: the quotient
0.9996 rounds to 1) and NNE at 22.5. -/
theorem c4_wind_boundaries_amended :
    get_wind_direction (some 0) = "N" ∧ get_wind_direction (some 90) = "E"
      ∧ get_wind_direction (some 180) = "S" ∧ get_wind_direction (some 270) = "W"
      ∧ get_wind_direction (some 360) = "N"
      ∧ get_wind_direction (some (2249 / 100)) = "NNE"
      ∧ get_wind_direction (some (45 / 2)) = "NNE" := by
  have hlen : ((directions.length : ℕ) : ℚ) = 16 := directions_length_q
  refine ⟨?_, ?_, ?_, ?_, ?_, ?_, ?_⟩
  · exact (get_wind_direction_some_eq 0 0 0 0 (by rw [hlen]; norm_num)
      (round_py_of_lt 0 0 (by norm_num) (by norm_num)) (by decide)).trans rfl
  · exact (get_wind_direction_some_eq 90 4 4 4 (by rw [hlen]; norm_num)
      (round_py_of_lt 4 4 (by norm_num) (by norm_num)) (by decide)).trans rfl
  · exact (get_wind_direction_some_eq 180 8 8 8 (by rw [hlen]; norm_num)
      (round_py_of_lt 8 8 (by norm_num) (by norm_num)) (by decide)).trans rfl
  · exact (get_wind_direction_some_eq 270 12 12 12 (by rw [hlen]; norm_num)
      (round_py_of_lt 12 12 (by norm_num) (by norm_num)) (by decide)).trans rfl
  · exact (get_wind_direction_some_eq 360 16 16 0 (by rw [hlen]; norm_num)
      (round_py_of_lt 16 16 (by norm_num) (by norm_num)) (by decide)).trans rfl
  · exact (get_wind_direction_some_eq (2249 / 100) (2249 / 2250) (0 + 1) 1
      (by rw [hlen]; norm_num)
      (round_py_of_gt (2249 / 2250) 0 (by norm_num) (by norm_num) (by norm_num))
      (by decide)).trans rfl
  · exact (get_wind_direction_some_eq (45 / 2) 1 1 1 (by rw [hlen]; norm_num)
      (round_py_of_lt 1 1 (by norm_num) (by norm_num)) (by decide)).trans rfl

/-- C5: for a present timestamp and offset the local time is exactly the
sum; the filter loop keeps exactly the items with a timestamp (shifted by
the offset) and drops everything when the offset is missing. -/
theorem c5_local_time_and_drop :
    (∀ t off : ℤ, convert_timestamp_to_local (some t) (some off) = some (t + off))
      ∧ (∀ (forecast_list : List ForecastItem) (off : ℤ),
          forecast_rows forecast_list (some off)
            = forecast_list.filterMap (fun item => item.dt.map (fun t => mkRow item (t + off))))
      ∧ (∀ forecast_list : List ForecastItem, forecast_rows forecast_list none = []) :=
  ⟨fun _ _ => rfl, forecast_rows_some_offset, forecast_rows_none_offset⟩

/-- A forecast item without a timestamp. -/
def c6_missing_dt_item : ForecastItem := ⟨none, none, none, none, none, none, none, none⟩

/-- C6 counterexample: a nonempty payload whose only item lacks a timestamp
is empty after filtering, yet the pipeline raises the uncaught pandas
KeyError instead of emitting the no-data warning: the emptiness check runs
before the filter, and an empty frame has no FilterDate column. -/
theorem c6_filtered_empty_counterexample :
    forecast_rows [c6_missing_dt_item] (some 0) = []
      ∧ display_forecast [c6_missing_dt_item] (some 0) = ForecastResult.failure key_error_msg
      ∧ display_forecast [c6_missing_dt_item] (some 0) ≠ ForecastResult.noData no_forecast_msg := by
  refine ⟨rfl, rfl, ?_⟩
  intro h
  simp [display_forecast, forecast_rows, c6_missing_dt_item, convert_timestamp_to_local,
    key_error_msg, no_forecast_msg] at h

/-- C6 amended: the no-data warning is emitted (with no groups and no
error) exactly when the payload list is empty before filtering; a nonempty
list whose every entry is dropped by the filter raises a KeyError
instead. -/
theorem c6_no_data_amended :
    (∀ off : Option ℤ, display_forecast [] off = ForecastResult.noData no_forecast_msg)
      ∧ (∀ (forecast_list : List ForecastItem) (off : Option ℤ),
          forecast_list ≠ [] → forecast_rows forecast_list off = [] →
            display_forecast forecast_list off = ForecastResult.failure key_error_msg) := by
  constructor
  · intro off
    rfl
  · intro forecast_list off h1 h2
    simp [display_forecast, h1, h2]

/-- A current-conditions payload complete except for the temperature. -/
def c7_missing_temp_data : CurrentData :=
  { name := some sample_city, country := some sample_country, timezone := some 3600,
    weather_main := some clear_str, weather_description := some clear_desc,
    temp := none, feels_like := some 20, temp_min := some 15, temp_max := some 25,
    pressure := some 1013, humidity := some 50, visibility := some 10000,
    wind_speed := some 5, wind_deg := some 200, wind_gust := some 8,
    clouds_all := some 0, rain_1h := none, snow_1h := none,
    sunrise := some 1700000000, sunset := some 1700040000 }

/-- C7 counterexample: temperature is one of the optional fields the claim
names, yet a payload missing only the temperature makes display_weather
raise the formatting TypeError instead of rendering an N/A marker. -/
theorem c7_missing_temp_counterexample :
    c7_missing_temp_data.temp = none
      ∧ display_weather c7_missing_temp_data = Except.error type_error_msg :=
  ⟨rfl, rfl⟩

/-- The field list display_weather renders when the gust, cloudiness,
visibility, wind direction, sunrise and sunset are missing and the four
temperatures are present. -/
def c7_expected_fields (data : CurrentData) (t f tmin tmax : ℚ) : List (String × String) :=
  [("Header", "🌎 Current Weather in " ++ data.name.getD NA ++ ", " ++ (data.country.getD NA).toUpper),
   ("Condition",
     (WEATHER_EMOJIS.lookup (data.weather_main.getD NA)).getD EMOJI_UNKNOWN ++ " (" ++
       capitalize_py (data.weather_description.getD NA) ++ ")"),
   ("Temperature", format_fixed 1 t ++ " " ++ unit_symbol),
   ("Feels Like", format_fixed 1 f ++ " " ++ unit_symbol),
   ("Sunrise", NA), ("Sunset", NA),
   ("Min/Max Temp (Day)", format_fixed 1 tmin ++ " / " ++ format_fixed 1 tmax ++ " " ++ unit_symbol),
   ("Wind Speed", str_py_rat data.wind_speed ++ " m/s"),
   ("Wind Direction", NA),
   ("Pressure", str_py_int data.pressure ++ " hPa"),
   ("Humidity", str_py_int data.humidity ++ " %"),
   ("Visibility", NA), ("Cloudiness", NA), ("Wind Gust", NA),
   ("Precipitation (1hr)",
     format_fixed 2 (data.rain_1h.getD 0 + data.snow_1h.getD 0) ++ " mm")]

/-- C7 amended: when the four temperature fields are present, rendering
succeeds, and each of the genuinely guarded optional fields (wind gust,
cloudiness, visibility, wind direction, sunrise, sunset) that is missing
renders as an explicit N/A marker; a missing temperature, feels-like or
min/max temperature instead raises a TypeError, and a missing pressure,
humidity or wind speed renders the word None. -/
theorem c7_na_markers_amended (data : CurrentData) (t f tmin tmax : ℚ)
    (ht : data.temp = some t) (hf : data.feels_like = some f)
    (hmin : data.temp_min = some tmin) (hmax : data.temp_max = some tmax)
    (hg : data.wind_gust = none) (hc : data.clouds_all = none)
    (hv : data.visibility = none) (hw : data.wind_deg = none)
    (hsr : data.sunrise = none) (hss : data.sunset = none) :
    ∃ fields, display_weather data = Except.ok fields
      ∧ ("Sunrise", NA) ∈ fields ∧ ("Sunset", NA) ∈ fields
      ∧ ("Wind Direction", NA) ∈ fields ∧ ("Visibility", NA) ∈ fields
      ∧ ("Cloudiness", NA) ∈ fields ∧ ("Wind Gust", NA) ∈ fields := by
  refine ⟨c7_expected_fields data t f tmin tmax, ?_, ?_, ?_, ?_, ?_, ?_, ?_⟩
  · simp only [display_weather, ht, hf, hmin, hmax, hg, hc, hv, hw, hsr, hss,
      format_fixed1, convert_timestamp_to_local, get_wind_direction]
    rfl
  all_goals simp [c7_expected_fields]

/-- A current-conditions payload with the four temperatures present and
every guarded optional field absent. -/
def c7_all_guarded_missing_data : CurrentData :=
  { name := some sample_city, country := some sample_country, timezone := some 3600,
    weather_main := some clear_str, weather_description := some clear_desc,
    temp := some 21, feels_like := some 20, temp_min := some 15, temp_max := some 25,
    pressure := some 1013, humidity := some 50, visibility := none,
    wind_speed := some 5, wind_deg := none, wind_gust := none,
    clouds_all := none, rain_1h := none, snow_1h := none,
    sunrise := none, sunset := none }

/-- C7 witness: the N/A-marker theorem at the concrete payload. -/
theorem c7_na_markers_witness :
    ∃ fields, display_weather c7_all_guarded_missing_data = Except.ok fields
      ∧ ("Sunrise", NA) ∈ fields ∧ ("Sunset", NA) ∈ fields
      ∧ ("Wind Direction", NA) ∈ fields ∧ ("Visibility", NA) ∈ fields
      ∧ ("Cloudiness", NA) ∈ fields ∧ ("Wind Gust", NA) ∈ fields :=
  c7_na_markers_amended c7_all_guarded_missing_data 21 20 15 25
    rfl rfl rfl rfl rfl rfl rfl rfl rfl rfl

/-- C8: with no API credential configured, both fetch functions stop at the
credential check: no HTTP request is issued, the result is a failure, and
the two-line key-missing error is reported. -/
theorem c8_missing_credential_blocks (api_key city_name country_code : String)
    (current_response : HttpResponse CurrentData)
    (forecast_response : HttpResponse (List ForecastItem))
    (h : api_key = PLACEHOLDER_KEY) :
    (get_current_weather_data api_key city_name country_code current_response).requests_issued = 0
      ∧ (get_current_weather_data api_key city_name country_code current_response).result = none
      ∧ (get_current_weather_data api_key city_name country_code current_response).messages
          = api_key_missing_msgs
      ∧ (get_forecast_data api_key city_name country_code forecast_response).requests_issued = 0
      ∧ (get_forecast_data api_key city_name country_code forecast_response).result = none
      ∧ (get_forecast_data api_key city_name country_code forecast_response).messages
          = api_key_missing_msgs
      ∧ api_key_missing_msgs ≠ [] := by
  subst h
  refine ⟨?_, ?_, ?_, ?_, ?_, ?_, by simp [api_key_missing_msgs]⟩
    <;> simp [get_current_weather_data, get_forecast_data, handle_api_error]

/-- A fetch attempt whose transport would fail; C8 shows it is never
reached. -/
def sample_response_current : HttpResponse CurrentData := .connectionError

/-- The forecast-side counterpart of sample_response_current. -/
def sample_response_forecast : HttpResponse (List ForecastItem) := .connectionError

/-- C8 witness: the credential theorem at the placeholder key and concrete
responses. -/
theorem c8_missing_credential_witness :
    (get_current_weather_data PLACEHOLDER_KEY sample_city sample_country
        sample_response_current).requests_issued = 0
      ∧ (get_current_weather_data PLACEHOLDER_KEY sample_city sample_country
          sample_response_current).result = none
      ∧ (get_current_weather_data PLACEHOLDER_KEY sample_city sample_country
          sample_response_current).messages = api_key_missing_msgs
      ∧ (get_forecast_data PLACEHOLDER_KEY sample_city sample_country
          sample_response_forecast).requests_issued = 0
      ∧ (get_forecast_data PLACEHOLDER_KEY sample_city sample_country
          sample_response_forecast).result = none
      ∧ (get_forecast_data PLACEHOLDER_KEY sample_city sample_country
          sample_response_forecast).messages = api_key_missing_msgs
      ∧ api_key_missing_msgs ≠ [] :=
  c8_missing_credential_blocks PLACEHOLDER_KEY sample_city sample_country
    sample_response_current sample_response_forecast rfl

/-- C9: when the current-conditions endpoint answers 404 (and a credential
is configured, so the request is actually made), the user sees the
city-not-found message, the current result is a failure, and the forecast
fetch is not attempted; in general the forecast fetch happens exactly when
the current-conditions fetch succeeds. -/
theorem c9_notfound_skips_forecast (api_key city_name country_code : String)
    (forecast_response : HttpResponse (List ForecastItem))
    (hk : api_key ≠ PLACEHOLDER_KEY) :
    (main_fetch api_key city_name country_code .notFound forecast_response).1.result = none
      ∧ (main_fetch api_key city_name country_code .notFound forecast_response).1.messages
          = [city_not_found_msg city_name]
      ∧ (main_fetch api_key city_name country_code .notFound forecast_response).2 = none
      ∧ ∀ current_response : HttpResponse CurrentData,
          (main_fetch api_key city_name country_code current_response forecast_response).2.isSome
            = (get_current_weather_data api_key city_name country_code
                current_response).result.isSome := by
  have hkey : handle_api_error api_key = false := by
    simp [handle_api_error, hk]
  refine ⟨?_, ?_, ?_, ?_⟩
  · simp [main_fetch, get_current_weather_data, hkey]
  · simp [main_fetch, get_current_weather_data, hkey]
  · simp [main_fetch, get_current_weather_data, hkey]
  · intro current_response
    cases current_response <;>
      simp [main_fetch, get_current_weather_data, get_forecast_data, hkey]

/-- C9 witness: the 404 theorem at a configured key and concrete
responses. -/
theorem c9_notfound_witness :
    (main_fetch sample_api_key sample_city sample_country .notFound
        sample_response_forecast).1.result = none
      ∧ (main_fetch sample_api_key sample_city sample_country .notFound
          sample_response_forecast).1.messages = [city_not_found_msg sample_city]
      ∧ (main_fetch sample_api_key sample_city sample_country .notFound
          sample_response_forecast).2 = none
      ∧ ∀ current_response : HttpResponse CurrentData,
          (main_fetch sample_api_key sample_city sample_country current_response
              sample_response_forecast).2.isSome
            = (get_current_weather_data sample_api_key sample_city sample_country
                current_response).result.isSome :=
  c9_notfound_skips_forecast sample_api_key sample_city sample_country
    sample_response_forecast (by decide)

/-- C10: the wind-direction conversion is total: a missing reading yields
the N/A marker, and for every rational degree value (negative and beyond
360 included) the computed index round(deg / 22.5) mod 16 lies in the
interval from 0 to 15, so the result is always one of the sixteen compass
names and never an out-of-range access. -/
theorem c10_wind_direction_total (d : ℚ) :
    get_wind_direction none = NA
      ∧ 0 ≤ round_py (d / ((360 : ℚ) / (directions.length : ℚ))) % (directions.length : ℤ)
      ∧ round_py (d / ((360 : ℚ) / (directions.length : ℚ))) % (directions.length : ℤ) < 16
      ∧ get_wind_direction (some d) ∈ directions := by
  have hlen : (directions.length : ℤ) = 16 := by decide
  have h0 : 0 ≤ round_py (d / ((360 : ℚ) / (directions.length : ℚ)))
      % (directions.length : ℤ) := by
    apply Int.emod_nonneg
    rw [hlen]
    norm_num
  have h16 : round_py (d / ((360 : ℚ) / (directions.length : ℚ)))
      % (directions.length : ℤ) < 16 := by
    rw [hlen]
    exact Int.emod_lt_of_pos _ (by norm_num)
  refine ⟨rfl, h0, h16, ?_⟩
  have hn : (round_py (d / ((360 : ℚ) / (directions.length : ℚ)))
      % (directions.length : ℤ)).toNat < directions.length := by
    have hl : directions.length = 16 := by decide
    omega
  show directions.getD
      ((round_py (d / ((360 : ℚ) / (directions.length : ℚ)))
        % (directions.length : ℤ)).toNat) INDEX_ERROR ∈ directions
  rw [List.getD_eq_getElem _ _ hn]
  exact List.getElem_mem hn

end SatWeather
